import Mathlib

/-!
Kinematic definitions and inverse-kinematics contract of the da Vinci arm

Shallow embedding of `src/davinci_kinematic_definitions.cpp` (the Denavit-Hartenberg
table and the joint-limit table) and of the interface declared in
`include/cwru_davinci_kinematics/davinci_inv_kinematics.h`.

Numbers: a C++ `double` is embedded as the rational number its literal denotes, so every
definition is executable and every comparison decidable.  Rounding of double arithmetic
is not modelled.  `M_PI` is the exact binary value of the `math.h` constant.
-/

namespace davinci_kinematics

/-! ## Constants of `davinci_kinematic_definitions.cpp` -/

/-- The `math.h` constant `M_PI`: the double nearest to pi, `0x400921FB54442D18`. -/
def M_PI : ℚ := 884279719003555 / 281474976710656

/-- Source line 105, `dist_from_wrist_bend_axis_to_gripper_jaw_rot_axis = 0.0091`.
It is a constant-initialised object, so it holds its value before any
initialiser that reads it runs. -/
def dist_from_wrist_bend_axis_to_gripper_jaw_rot_axis : ℚ := 0.0091

/-- Source line 107. -/
def gripper_jaw_length : ℚ := 0.0102

def DH_a1 : ℚ := 0.0
def DH_a2 : ℚ := 0.0
def DH_a3 : ℚ := 0.0
def DH_a4 : ℚ := 0.0
/-- Source line 19: axes z4 and z5 do not intersect. -/
def DH_a5 : ℚ := dist_from_wrist_bend_axis_to_gripper_jaw_rot_axis
def DH_a6 : ℚ := 0.0
def DH_a7 : ℚ := 0.0

def DH_d1 : ℚ := 0.0
def DH_d2 : ℚ := 0.0
def DH_d3 : ℚ := 0.0
def DH_d4 : ℚ := 0.0
def DH_d5 : ℚ := 0.0
def DH_d6 : ℚ := 0.0
def DH_d7 : ℚ := 0.0

def DH_alpha1 : ℚ := M_PI / 2.0
def DH_alpha2 : ℚ := M_PI / 2.0
def DH_alpha3 : ℚ := 0.0
def DH_alpha4 : ℚ := M_PI / 2.0
def DH_alpha5 : ℚ := -M_PI / 2.0
def DH_alpha6 : ℚ := M_PI / 2.0
def DH_alpha7 : ℚ := 0.0

/-- Source line 53: displacement that brings the wrist-bend axis onto the base origin. -/
def insertion_offset : ℚ := 0.0156

def DH_q_offset0 : ℚ := 0.0
def DH_q_offset1 : ℚ := M_PI / 2.0
/-- Source line 58; the source comment reads
"q3 should be larger than abs(insertion_offset)". -/
def DH_q_offset2 : ℚ := -insertion_offset
def DH_q_offset3 : ℚ := M_PI
def DH_q_offset4 : ℚ := M_PI / 2
def DH_q_offset5 : ℚ := M_PI / 2
def DH_q_offset6 : ℚ := 0.0

def DH_q_max0 : ℚ := 1.0
def DH_q_max1 : ℚ := 0.7
def DH_q_max2 : ℚ := 0.23
def DH_q_max3 : ℚ := 2.25
def DH_q_max4 : ℚ := 1.57
def DH_q_max5 : ℚ := 1.39
def DH_q_max6 : ℚ := 1.57

def DH_q_min0 : ℚ := -1.0
def DH_q_min1 : ℚ := -0.7
def DH_q_min2 : ℚ := 0.01
def DH_q_min3 : ℚ := -2.25
def DH_q_min4 : ℚ := -1.57
def DH_q_min5 : ℚ := -1.39
def DH_q_min6 : ℚ := -1.57

/-- A C array `const double x[7]`, indexed by the joint number 0..6. -/
abbrev Array7 := Fin 7 → ℚ

def DH_a_params : Array7 :=
  ![DH_a1, DH_a2, DH_a3, DH_a4, DH_a5, DH_a6, DH_a7]

def DH_d_params : Array7 :=
  ![DH_d1, DH_d2, DH_d3, DH_d4, DH_d5, DH_d6, DH_d7]

def DH_alpha_params : Array7 :=
  ![DH_alpha1, DH_alpha2, DH_alpha3, DH_alpha4, DH_alpha5, DH_alpha6, DH_alpha7]

def DH_q_offsets : Array7 :=
  ![DH_q_offset0, DH_q_offset1, DH_q_offset2, DH_q_offset3, DH_q_offset4, DH_q_offset5,
    DH_q_offset6]

def q_lower_limits : Array7 :=
  ![DH_q_min0, DH_q_min1, DH_q_min2, DH_q_min3, DH_q_min4, DH_q_min5, DH_q_min6]

def q_upper_limits : Array7 :=
  ![DH_q_max0, DH_q_max1, DH_q_max2, DH_q_max3, DH_q_max4, DH_q_max5, DH_q_max6]

/-- The joint vector type `Vectorq7x1` of the header. -/
abbrev Vectorq7x1 := Fin 7 → ℚ

/-- The test `q_lower_limits[i] <= q <= q_upper_limits[i]` of joint `i`. -/
def within_limits (i : Fin 7) (q : ℚ) : Prop :=
  q_lower_limits i ≤ q ∧ q ≤ q_upper_limits i

instance within_limits_decidable (i : Fin 7) (q : ℚ) : Decidable (within_limits i q) := by
  unfold within_limits
  exact inferInstance

/-- The home joint vector: every displacement is 0 (source lines 48-50). -/
def q_home : Vectorq7x1 := fun _ => 0

/-! ## The joint-limit fitter -/

/-- Modelled from the spec: the wrap "into the canonical range [0, 2π)" of spec 4.4 (the
header says "after wrapping into the range 0-2pi"); no body of it is in the source.  The
value moves by a whole number of turns `2.0 * M_PI`. -/
def wrap_0_2pi (q : ℚ) : ℚ :=
  q - (2.0 * M_PI) * (⌊q / (2.0 * M_PI)⌋ : ℤ)

/-- Modelled from the spec: the value that spec 4.4 compares with the limits, "First wraps
the value into the canonical range [0, 2π) (or the physically continuous equivalent for
joints not flagged continuous)".  A joint flagged continuous (spec 6: "a boolean per joint
indicating whether it wraps continuously", header member `continuous_joint_`) is wrapped.
A joint that is not, one with hardware end stops or the prismatic insertion, keeps its
physical displacement, so that a value within the hardware limits stays within them
(header lines 137-141). -/
def wrap_joint (continuous : Bool) (q : ℚ) : ℚ :=
  if continuous then wrap_0_2pi q else q

/-- Modelled from the spec: `bool Inverse::fit_q_to_range(double q_min, double q_max,
double &q)`, declared at header lines 198-207, body not in the source.  Spec 4.4: wrap
the value, "then checks `q_min ≤ value' ≤ q_max`".  The flag of the joint, which the member
function reads from the object, is the first argument here.  The pair is the returned
flag and the final content of the reference parameter `q`. -/
def fit_q_to_range (continuous : Bool) (q_min q_max q : ℚ) : Bool × ℚ :=
  let q' := wrap_joint continuous q
  (decide (q_min ≤ q' ∧ q' ≤ q_max), q')

/-- Modelled from the spec: `bool Inverse::fit_joints_to_range(Vectorq7x1 &qvec)`,
declared at header lines 136-143, body not in the source.  Spec 4.4: the fitter is
"applied to every joint", with that joint's limits, and "any joint (any of the 7) failing
this check aborts the whole candidate". -/
def fit_joints_to_range (continuous_joint_ : Fin 7 → Bool) (qvec : Vectorq7x1) :
    Bool × Vectorq7x1 :=
  ((List.finRange 7).all fun i =>
      (fit_q_to_range (continuous_joint_ i) (q_lower_limits i) (q_upper_limits i) (qvec i)).1,
    fun i =>
      (fit_q_to_range (continuous_joint_ i) (q_lower_limits i) (q_upper_limits i) (qvec i)).2)

/-! ## The solver -/

/-- The type `Eigen::Vector3d`. -/
abbrev Vector3d := Fin 3 → ℚ

/-- The type `Eigen::Affine3d`: a rotation block and a translation. -/
structure Affine3d where
  linear : Fin 3 → Fin 3 → ℚ
  translation : Vector3d

/-- Modelled from the spec: the closed-form geometry that the header declares and whose
bodies are not in the source (`compute_w_from_tip`, `q123_from_wrist`, `compute_q456`),
the quantities named by the error list of header lines 49-52, the forward kinematics
residual of spec 4.5 step 4, and the choice between two accepted candidates, which the
spec leaves open.  Every result about the solver holds for all of them. -/
structure ClosedForms where
  /-- Quantity of error "-1" (header line 49). -/
  tool_tip_z_des : Affine3d → ℚ
  /-- Quantity of error "-2" (header line 50): the wrist point in the base frame. -/
  O_5_wrt_base : Affine3d → Vector3d
  /-- Header lines 194-196; the outputs are `zvec_4a`, `zvec_4b`, `sol_O4a`, `sol_O4b`. -/
  compute_w_from_tip : Affine3d → Vector3d × Vector3d × Vector3d × Vector3d
  /-- Header line 156. -/
  q123_from_wrist : Vector3d → Vector3d
  /-- Quantity of error "-3" (header line 51). -/
  projection_gripper_zvec_onto_O5_vec : Vector3d → Vector3d → Affine3d → ℚ
  /-- Quantity of error "-4" (header line 52). -/
  mag_z5xO5 : Vector3d → Vector3d → Affine3d → ℚ
  /-- Header line 178. -/
  compute_q456 : Vector3d → Vector3d → Affine3d → Vectorq7x1
  /-- Residuals `err_l_`, `err_r_` of a candidate against the desired pose. -/
  fk_errors : Vectorq7x1 → Affine3d → ℚ × ℚ
  /-- Whether the sign-B candidate is the one kept when both are accepted. -/
  prefer_b : Vectorq7x1 → Vectorq7x1 → Affine3d → Bool

/-- The five reasons for "no solution" listed at header lines 49-53 and in spec 7. -/
inductive IKError where
  | tool_tip_z
  | wrist_z
  | projection
  | wrist_offset
  | joint_range
  deriving DecidableEq

/-- The integer code of each reason. -/
def IKError.code : IKError → Int
  | .tool_tip_z => -1
  | .wrist_z => -2
  | .projection => -3
  | .wrist_offset => -4
  | .joint_range => -5

/-- What the wrist-point extractor of spec 4.1 hands to the later stages: the computed
wrist point and the two wrist-sign candidates. -/
structure WristData where
  O_5_wrt_base : Vector3d
  zvec_4a : Vector3d
  zvec_4b : Vector3d
  sol_O4a : Vector3d
  sol_O4b : Vector3d

/-- The wrist data of a pose, from the closed forms. -/
def ClosedForms.wrist_data (g : ClosedForms) (desired_hand_pose : Affine3d) : WristData where
  O_5_wrt_base := g.O_5_wrt_base desired_hand_pose
  zvec_4a := (g.compute_w_from_tip desired_hand_pose).1
  zvec_4b := (g.compute_w_from_tip desired_hand_pose).2.1
  sol_O4a := (g.compute_w_from_tip desired_hand_pose).2.2.1
  sol_O4b := (g.compute_w_from_tip desired_hand_pose).2.2.2

/-- Modelled from the spec: the wrist-point extractor stage of spec 4.1, part of the body
of `Inverse::ik_solve`, which is not in the source.  "Precondition: `tool_tip_z_des > 0`",
"violated inputs fail" with code -1; only a pose that passes has its wrist data
computed. -/
def extract_wrist (g : ClosedForms) (desired_hand_pose : Affine3d) :
    Except IKError WristData :=
  if g.tool_tip_z_des desired_hand_pose ≤ 0 then .error .tool_tip_z
  else .ok (g.wrist_data desired_hand_pose)

/-- Modelled from the spec: steps 1-3 of spec 4.5 for one wrist-sign candidate, part of
the body of `Inverse::ik_solve`, which is not in the source.  Position solver (4.2; code
-2 when `O_5_wrt_base(2) <= 0.0`, header line 50), orientation solver (4.3; codes -3 and
-4, header lines 51-52), then the joint-limit fitter on all seven joints (4.4; code
-5). -/
def solve_candidate (g : ClosedForms) (continuous_joint_ : Fin 7 → Bool)
    (desired_hand_pose : Affine3d) (O_5_wrt_base wrist_pt z_vec4 : Vector3d) :
    Except IKError Vectorq7x1 :=
  if O_5_wrt_base 2 ≤ 0 then .error .wrist_z
  else
    let q123 := g.q123_from_wrist wrist_pt
    if g.projection_gripper_zvec_onto_O5_vec q123 z_vec4 desired_hand_pose > 0 then
      .error .projection
    else if g.mag_z5xO5 q123 z_vec4 desired_hand_pose
        ≥ dist_from_wrist_bend_axis_to_gripper_jaw_rot_axis then
      .error .wrist_offset
    else
      let fitted :=
        fit_joints_to_range continuous_joint_ (g.compute_q456 q123 z_vec4 desired_hand_pose)
      if fitted.1 then .ok fitted.2 else .error .joint_range

/-- The data members of `class Inverse` that a solve reads or writes (header lines
212-220 and 243). -/
structure Inverse where
  q_vec_soln_ : Vectorq7x1
  err_l_ : ℚ
  err_r_ : ℚ
  continuous_joint_ : Fin 7 → Bool

/-- Header lines 68-71: `get_soln` returns `q_vec_soln_`. -/
def Inverse.get_soln (self : Inverse) : Vectorq7x1 := self.q_vec_soln_

/-- Header lines 76-79. -/
def Inverse.getError_l (self : Inverse) : ℚ := self.err_l_

/-- Header lines 81-84. -/
def Inverse.getError_r (self : Inverse) : ℚ := self.err_r_

/-- Store an accepted candidate with its residuals (spec 4.5 step 4). -/
def Inverse.accept (self : Inverse) (g : ClosedForms) (desired_hand_pose : Affine3d)
    (q : Vectorq7x1) : Inverse :=
  { self with
    q_vec_soln_ := q
    err_l_ := (g.fk_errors q desired_hand_pose).1
    err_r_ := (g.fk_errors q desired_hand_pose).2 }

/-- Modelled from the spec: `int Inverse::ik_solve(Eigen::Affine3d const&)`, declared at
header lines 44-61, body not in the source.  Spec 4.5: the extractor runs first, then
both wrist-sign candidates; the result is the number of accepted candidates, and when
none is accepted the code reached on the sign-A branch.  Spec 7: a failure leaves the
visible state as it was.  The pair is the returned integer and the solver object after
the call. -/
def ik_solve (g : ClosedForms) (self : Inverse) (desired_hand_pose : Affine3d) :
    Int × Inverse :=
  match extract_wrist g desired_hand_pose with
  | .error e => (e.code, self)
  | .ok w =>
    match solve_candidate g self.continuous_joint_ desired_hand_pose w.O_5_wrt_base
        w.sol_O4a w.zvec_4a,
      solve_candidate g self.continuous_joint_ desired_hand_pose w.O_5_wrt_base
        w.sol_O4b w.zvec_4b with
    | .ok qa, .ok qb =>
      (2, self.accept g desired_hand_pose
        (if g.prefer_b qa qb desired_hand_pose then qb else qa))
    | .ok qa, .error _ => (1, self.accept g desired_hand_pose qa)
    | .error _, .ok qb => (1, self.accept g desired_hand_pose qb)
    | .error ea, .error _ => (ea.code, self)

/-- A concrete instance of the closed forms, used to run the orchestration on explicit
numbers.  The tip height is the z translation of the pose; the wrist point, and both
candidate origins, are the tip origin moved back by `gripper_jaw_length` along the tip z
axis; the first three joints are the wrist-point coordinates and the last four are 0;
both orientation tests pass. -/
def sample_forms : ClosedForms where
  tool_tip_z_des := fun p => p.translation 2
  O_5_wrt_base := fun p i => p.translation i - gripper_jaw_length * p.linear i 2
  compute_w_from_tip := fun p =>
    (fun i => p.linear i 1, fun i => -p.linear i 1,
      fun i => p.translation i - gripper_jaw_length * p.linear i 2,
      fun i => p.translation i - gripper_jaw_length * p.linear i 2)
  q123_from_wrist := fun w => w
  projection_gripper_zvec_onto_O5_vec := fun _ _ _ => 0
  mag_z5xO5 := fun _ _ _ => 0
  compute_q456 := fun q123 _ _ => ![q123 0, q123 1, q123 2, 0, 0, 0, 0]
  fk_errors := fun _ _ => (0, 0)
  prefer_b := fun _ _ _ => false

/-- A pose with identity rotation and the given translation. -/
def pose_at (x y z : ℚ) : Affine3d where
  linear := fun i j => if i = j then 1 else 0
  translation := ![x, y, z]

/-- A solver object before any solve: all members 0, no joint flagged continuous (every
joint of the limit table has finite limits). -/
def Inverse.fresh : Inverse where
  q_vec_soln_ := fun _ => 0
  err_l_ := 0
  err_r_ := 0
  continuous_joint_ := fun _ => false

/-! ## Facts about the tables -/

theorem q_lower_limits_lt_upper (i : Fin 7) : q_lower_limits i < q_upper_limits i := by
  fin_cases i <;>
    norm_num [q_lower_limits, q_upper_limits, DH_q_min0, DH_q_min1, DH_q_min2, DH_q_min3,
      DH_q_min4, DH_q_min5, DH_q_min6, DH_q_max0, DH_q_max1, DH_q_max2, DH_q_max3,
      DH_q_max4, DH_q_max5, DH_q_max6]

/-! ## Facts about the fitter -/

theorem two_M_PI_pos : (0 : ℚ) < 2.0 * M_PI := by
  norm_num [M_PI]

theorem wrap_0_2pi_nonneg (q : ℚ) : 0 ≤ wrap_0_2pi q := by
  have hP := two_M_PI_pos
  have h := Int.floor_le (q / (2.0 * M_PI))
  have h2 : ((⌊q / (2.0 * M_PI)⌋ : ℤ) : ℚ) * (2.0 * M_PI) ≤ q := (le_div_iff₀ hP).mp h
  unfold wrap_0_2pi
  linarith

theorem wrap_0_2pi_lt (q : ℚ) : wrap_0_2pi q < 2.0 * M_PI := by
  have hP := two_M_PI_pos
  have h := Int.lt_floor_add_one (q / (2.0 * M_PI))
  have h2 : q < (((⌊q / (2.0 * M_PI)⌋ : ℤ) : ℚ) + 1) * (2.0 * M_PI) := (div_lt_iff₀ hP).mp h
  unfold wrap_0_2pi
  linarith

theorem wrap_0_2pi_of_mem (q : ℚ) (h0 : 0 ≤ q) (h1 : q < 2.0 * M_PI) : wrap_0_2pi q = q := by
  have hP := two_M_PI_pos
  have hf : ⌊q / (2.0 * M_PI)⌋ = 0 := by
    rw [Int.floor_eq_iff]
    constructor
    · simpa using div_nonneg h0 hP.le
    · simpa using (div_lt_one hP).mpr h1
  simp [wrap_0_2pi, hf]

theorem wrap_joint_idem (c : Bool) (q : ℚ) : wrap_joint c (wrap_joint c q) = wrap_joint c q := by
  cases c
  · simp [wrap_joint]
  · simp only [wrap_joint, if_true]
    exact wrap_0_2pi_of_mem _ (wrap_0_2pi_nonneg q) (wrap_0_2pi_lt q)

theorem fit_joints_to_range_true (c : Fin 7 → Bool) (qvec : Vectorq7x1)
    (h : (fit_joints_to_range c qvec).1 = true) (i : Fin 7) :
    within_limits i ((fit_joints_to_range c qvec).2 i) := by
  simp only [fit_joints_to_range, List.all_eq_true] at h
  have hi := h i (List.mem_finRange i)
  simpa [fit_q_to_range, within_limits, fit_joints_to_range] using hi

theorem fit_joints_to_range_fixed (c : Fin 7 → Bool) (qvec : Vectorq7x1)
    (hw : ∀ i, wrap_joint (c i) (qvec i) = qvec i) (hl : ∀ i, within_limits i (qvec i)) :
    fit_joints_to_range c qvec = (true, qvec) := by
  apply Prod.ext
  · simp only [fit_joints_to_range, List.all_eq_true]
    intro i _
    simp only [fit_q_to_range, hw i]
    simpa [within_limits] using hl i
  · funext i
    simp only [fit_joints_to_range, fit_q_to_range, hw i]

theorem fit_joints_to_range_idem (c : Fin 7 → Bool) (qvec : Vectorq7x1)
    (h : (fit_joints_to_range c qvec).1 = true) :
    fit_joints_to_range c (fit_joints_to_range c qvec).2
      = (true, (fit_joints_to_range c qvec).2) := by
  apply fit_joints_to_range_fixed
  · intro i
    simp only [fit_joints_to_range, fit_q_to_range]
    exact wrap_joint_idem _ _
  · exact fit_joints_to_range_true c qvec h

/-! ## Facts about the solver -/

theorem extract_wrist_ok (g : ClosedForms) (pose : Affine3d) (h : 0 < g.tool_tip_z_des pose) :
    extract_wrist g pose = .ok (g.wrist_data pose) := by
  unfold extract_wrist
  rw [if_neg (not_le.mpr h)]

theorem extract_wrist_error (g : ClosedForms) (pose : Affine3d)
    (h : g.tool_tip_z_des pose ≤ 0) : extract_wrist g pose = .error .tool_tip_z := by
  unfold extract_wrist
  rw [if_pos h]

theorem solve_candidate_ok (g : ClosedForms) (c : Fin 7 → Bool) (pose : Affine3d)
    (o w z : Vector3d) (q : Vectorq7x1) (h : solve_candidate g c pose o w z = .ok q) :
    ∃ q0, (fit_joints_to_range c q0).1 = true ∧ q = (fit_joints_to_range c q0).2 := by
  unfold solve_candidate at h
  dsimp only at h
  split_ifs at h with h1 h2 h3 h4
  refine ⟨_, h4, ?_⟩
  simp only [Except.ok.injEq] at h
  exact h.symm

theorem solve_candidate_accept (g : ClosedForms) (c : Fin 7 → Bool) (pose : Affine3d)
    (o w z : Vector3d) (ho : 0 < o 2)
    (hp : g.projection_gripper_zvec_onto_O5_vec (g.q123_from_wrist w) z pose ≤ 0)
    (hm : g.mag_z5xO5 (g.q123_from_wrist w) z pose
      < dist_from_wrist_bend_axis_to_gripper_jaw_rot_axis)
    (hf : (fit_joints_to_range c (g.compute_q456 (g.q123_from_wrist w) z pose)).1 = true) :
    solve_candidate g c pose o w z
      = .ok (fit_joints_to_range c (g.compute_q456 (g.q123_from_wrist w) z pose)).2 := by
  unfold solve_candidate
  dsimp only
  rw [if_neg (not_le.mpr ho), if_neg (not_lt.mpr hp), if_neg (not_le.mpr hm), if_pos hf]

theorem IKError.code_neg (e : IKError) : e.code < 0 := by
  cases e <;> simp [IKError.code]

theorem ik_solve_extract_error (g : ClosedForms) (self : Inverse) (pose : Affine3d)
    (e : IKError) (h : extract_wrist g pose = .error e) :
    ik_solve g self pose = (e.code, self) := by
  unfold ik_solve
  rw [h]

/-- A pose that fails the tool-tip test has no wrist point computed and returns -1. -/
theorem ik_solve_tool_tip (g : ClosedForms) (self : Inverse) (pose : Affine3d)
    (h : g.tool_tip_z_des pose ≤ 0) : ik_solve g self pose = (-1, self) :=
  ik_solve_extract_error g self pose .tool_tip_z (extract_wrist_error g pose h)

theorem ik_solve_both_fail (g : ClosedForms) (self : Inverse) (pose : Affine3d)
    (w : WristData) (ea eb : IKError) (h : extract_wrist g pose = .ok w)
    (ha : solve_candidate g self.continuous_joint_ pose w.O_5_wrt_base w.sol_O4a w.zvec_4a
      = .error ea)
    (hb : solve_candidate g self.continuous_joint_ pose w.O_5_wrt_base w.sol_O4b w.zvec_4b
      = .error eb) :
    ik_solve g self pose = (ea.code, self) := by
  unfold ik_solve
  rw [h]
  dsimp only
  rw [ha, hb]

theorem ik_solve_a_only (g : ClosedForms) (self : Inverse) (pose : Affine3d)
    (w : WristData) (qa : Vectorq7x1) (eb : IKError) (h : extract_wrist g pose = .ok w)
    (ha : solve_candidate g self.continuous_joint_ pose w.O_5_wrt_base w.sol_O4a w.zvec_4a
      = .ok qa)
    (hb : solve_candidate g self.continuous_joint_ pose w.O_5_wrt_base w.sol_O4b w.zvec_4b
      = .error eb) :
    ik_solve g self pose = (1, self.accept g pose qa) := by
  unfold ik_solve
  rw [h]
  dsimp only
  rw [ha, hb]

theorem ik_solve_b_only (g : ClosedForms) (self : Inverse) (pose : Affine3d)
    (w : WristData) (ea : IKError) (qb : Vectorq7x1) (h : extract_wrist g pose = .ok w)
    (ha : solve_candidate g self.continuous_joint_ pose w.O_5_wrt_base w.sol_O4a w.zvec_4a
      = .error ea)
    (hb : solve_candidate g self.continuous_joint_ pose w.O_5_wrt_base w.sol_O4b w.zvec_4b
      = .ok qb) :
    ik_solve g self pose = (1, self.accept g pose qb) := by
  unfold ik_solve
  rw [h]
  dsimp only
  rw [ha, hb]

theorem ik_solve_both_ok (g : ClosedForms) (self : Inverse) (pose : Affine3d)
    (w : WristData) (qa qb : Vectorq7x1) (h : extract_wrist g pose = .ok w)
    (ha : solve_candidate g self.continuous_joint_ pose w.O_5_wrt_base w.sol_O4a w.zvec_4a
      = .ok qa)
    (hb : solve_candidate g self.continuous_joint_ pose w.O_5_wrt_base w.sol_O4b w.zvec_4b
      = .ok qb) :
    ik_solve g self pose
      = (2, self.accept g pose (if g.prefer_b qa qb pose then qb else qa)) := by
  unfold ik_solve
  rw [h]
  dsimp only
  rw [ha, hb]

theorem ik_solve_accepted (g : ClosedForms) (self : Inverse) (pose : Affine3d)
    (h : 1 ≤ (ik_solve g self pose).1) :
    ∃ q0, (fit_joints_to_range self.continuous_joint_ q0).1 = true ∧
      (ik_solve g self pose).2.get_soln = (fit_joints_to_range self.continuous_joint_ q0).2 ∧
      (ik_solve g self pose).2.continuous_joint_ = self.continuous_joint_ := by
  cases he : extract_wrist g pose with
  | error e =>
    rw [ik_solve_extract_error g self pose e he] at h
    have := IKError.code_neg e
    simp only at h
    omega
  | ok w =>
    cases ha : solve_candidate g self.continuous_joint_ pose w.O_5_wrt_base w.sol_O4a
        w.zvec_4a with
    | error ea =>
      cases hb : solve_candidate g self.continuous_joint_ pose w.O_5_wrt_base w.sol_O4b
          w.zvec_4b with
      | error eb =>
        rw [ik_solve_both_fail g self pose w ea eb he ha hb] at h
        have := IKError.code_neg ea
        simp only at h
        omega
      | ok qb =>
        rw [ik_solve_b_only g self pose w ea qb he ha hb]
        obtain ⟨q0, h0, hq⟩ := solve_candidate_ok _ _ _ _ _ _ _ hb
        exact ⟨q0, h0, hq, rfl⟩
    | ok qa =>
      cases hb : solve_candidate g self.continuous_joint_ pose w.O_5_wrt_base w.sol_O4b
          w.zvec_4b with
      | error eb =>
        rw [ik_solve_a_only g self pose w qa eb he ha hb]
        obtain ⟨q0, h0, hq⟩ := solve_candidate_ok _ _ _ _ _ _ _ ha
        exact ⟨q0, h0, hq, rfl⟩
      | ok qb =>
        rw [ik_solve_both_ok g self pose w qa qb he ha hb]
        by_cases hp : g.prefer_b qa qb pose = true
        · obtain ⟨q0, h0, hq⟩ := solve_candidate_ok _ _ _ _ _ _ _ hb
          refine ⟨q0, h0, ?_, rfl⟩
          rw [if_pos hp]
          exact hq
        · obtain ⟨q0, h0, hq⟩ := solve_candidate_ok _ _ _ _ _ _ _ ha
          refine ⟨q0, h0, ?_, rfl⟩
          rw [if_neg hp]
          exact hq

theorem ik_solve_code (g : ClosedForms) (self : Inverse) (pose : Affine3d) :
    (ik_solve g self pose).1 = 1 ∨ (ik_solve g self pose).1 = 2 ∨
      ∃ e : IKError, (ik_solve g self pose).1 = e.code := by
  cases he : extract_wrist g pose with
  | error e =>
    rw [ik_solve_extract_error g self pose e he]
    exact Or.inr (Or.inr ⟨e, rfl⟩)
  | ok w =>
    cases ha : solve_candidate g self.continuous_joint_ pose w.O_5_wrt_base w.sol_O4a
        w.zvec_4a with
    | error ea =>
      cases hb : solve_candidate g self.continuous_joint_ pose w.O_5_wrt_base w.sol_O4b
          w.zvec_4b with
      | error eb =>
        rw [ik_solve_both_fail g self pose w ea eb he ha hb]
        exact Or.inr (Or.inr ⟨ea, rfl⟩)
      | ok qb =>
        rw [ik_solve_b_only g self pose w ea qb he ha hb]
        exact Or.inl rfl
    | ok qa =>
      cases hb : solve_candidate g self.continuous_joint_ pose w.O_5_wrt_base w.sol_O4b
          w.zvec_4b with
      | error eb =>
        rw [ik_solve_a_only g self pose w qa eb he ha hb]
        exact Or.inl rfl
      | ok qb =>
        rw [ik_solve_both_ok g self pose w qa qb he ha hb]
        exact Or.inr (Or.inl rfl)

/-! ## Evaluation on the sample instance -/

theorem sample_O_5 (x y z : ℚ) (i : Fin 3) :
    (sample_forms.wrist_data (pose_at x y z)).O_5_wrt_base i
      = ![x, y, z - gripper_jaw_length] i := by
  fin_cases i <;> simp [sample_forms, pose_at, ClosedForms.wrist_data]

theorem sample_wrist_a (x y z : ℚ) (i : Fin 3) :
    (sample_forms.wrist_data (pose_at x y z)).sol_O4a i
      = ![x, y, z - gripper_jaw_length] i := by
  fin_cases i <;> simp [sample_forms, pose_at, ClosedForms.wrist_data]

theorem sample_wrist_b (x y z : ℚ) (i : Fin 3) :
    (sample_forms.wrist_data (pose_at x y z)).sol_O4b i
      = ![x, y, z - gripper_jaw_length] i := by
  fin_cases i <;> simp [sample_forms, pose_at, ClosedForms.wrist_data]

theorem sample_fit (x y z : ℚ) (hx : -1 ≤ x) (hx1 : x ≤ 1) (hy : -0.7 ≤ y) (hy1 : y ≤ 0.7)
    (hz : 0.01 ≤ z) (hz1 : z ≤ 0.23) :
    fit_joints_to_range Inverse.fresh.continuous_joint_ ![x, y, z, 0, 0, 0, 0]
      = (true, ![x, y, z, 0, 0, 0, 0]) := by
  norm_num at hy hy1 hz hz1
  apply fit_joints_to_range_fixed
  · intro i
    simp [wrap_joint, Inverse.fresh]
  · simp only [Fin.forall_fin_succ, within_limits, q_lower_limits, q_upper_limits, DH_q_min0,
      DH_q_min1, DH_q_min2, DH_q_min3, DH_q_min4, DH_q_min5, DH_q_min6, DH_q_max0, DH_q_max1,
      DH_q_max2, DH_q_max3, DH_q_max4, DH_q_max5, DH_q_max6]
    norm_num
    refine ⟨⟨?_, ?_⟩, ⟨?_, ?_⟩, ?_, ?_⟩ <;> linarith

theorem sample_candidate (pose : Affine3d) (o w zv : Vector3d) (ho : 0 < o 2)
    (h0 : -1 ≤ w 0) (h0u : w 0 ≤ 1) (h1 : -0.7 ≤ w 1) (h1u : w 1 ≤ 0.7) (h2 : 0.01 ≤ w 2)
    (h2u : w 2 ≤ 0.23) :
    solve_candidate sample_forms Inverse.fresh.continuous_joint_ pose o w zv
      = .ok ![w 0, w 1, w 2, 0, 0, 0, 0] := by
  have hf := sample_fit (w 0) (w 1) (w 2) h0 h0u h1 h1u h2 h2u
  have hacc := solve_candidate_accept sample_forms Inverse.fresh.continuous_joint_ pose o w zv
    ho (by simp [sample_forms])
    (by norm_num [sample_forms, dist_from_wrist_bend_axis_to_gripper_jaw_rot_axis])
    (by simp only [sample_forms]; rw [hf])
  rw [hacc]
  simp only [sample_forms]
  rw [hf]

theorem sample_solve_count :
    (ik_solve sample_forms Inverse.fresh (pose_at (-0.1) 0.1 0.2)).1 = 2 := by
  have he := extract_wrist_ok sample_forms (pose_at (-0.1) 0.1 0.2)
    (by norm_num [sample_forms, pose_at])
  rw [ik_solve_both_ok sample_forms Inverse.fresh (pose_at (-0.1) 0.1 0.2) _ _ _ he]
  · apply sample_candidate <;>
      first
      | (rw [sample_O_5]; norm_num [gripper_jaw_length])
      | (rw [sample_wrist_a]; norm_num [gripper_jaw_length])
  · apply sample_candidate <;>
      first
      | (rw [sample_O_5]; norm_num [gripper_jaw_length])
      | (rw [sample_wrist_b]; norm_num [gripper_jaw_length])

/-! ## The claims -/

/-- C1, limit invariant: whenever `ik_solve` reports at least one solution, the joint
vector exposed by `get_soln` satisfies `q_lower_limits[i] <= q[i] <= q_upper_limits[i]`
at every joint index, and `fit_joints_to_range` returns true on it, leaving it as it is. -/
theorem ik_solve_limit_invariant (g : ClosedForms) (self : Inverse)
    (desired_hand_pose : Affine3d) (h : 1 ≤ (ik_solve g self desired_hand_pose).1) :
    (∀ i : Fin 7,
        q_lower_limits i ≤ (ik_solve g self desired_hand_pose).2.get_soln i ∧
          (ik_solve g self desired_hand_pose).2.get_soln i ≤ q_upper_limits i) ∧
      fit_joints_to_range (ik_solve g self desired_hand_pose).2.continuous_joint_
          (ik_solve g self desired_hand_pose).2.get_soln
        = (true, (ik_solve g self desired_hand_pose).2.get_soln) := by
  obtain ⟨q0, h0, hq, hc⟩ := ik_solve_accepted g self desired_hand_pose h
  rw [hq, hc]
  exact ⟨fun i => fit_joints_to_range_true _ q0 h0 i, fit_joints_to_range_idem _ q0 h0⟩

/-- Witness of C1: on the sample instance the pose at (-0.1, 0.1, 0.2) has two accepted
candidates, and the exposed vector is within the limits. -/
theorem ik_solve_limit_invariant_witness :
    1 ≤ (ik_solve sample_forms Inverse.fresh (pose_at (-0.1) 0.1 0.2)).1 ∧
      ((∀ i : Fin 7,
          q_lower_limits i
              ≤ (ik_solve sample_forms Inverse.fresh (pose_at (-0.1) 0.1 0.2)).2.get_soln i ∧
            (ik_solve sample_forms Inverse.fresh (pose_at (-0.1) 0.1 0.2)).2.get_soln i
              ≤ q_upper_limits i) ∧
        fit_joints_to_range
            (ik_solve sample_forms Inverse.fresh (pose_at (-0.1) 0.1 0.2)).2.continuous_joint_
            (ik_solve sample_forms Inverse.fresh (pose_at (-0.1) 0.1 0.2)).2.get_soln
          = (true,
            (ik_solve sample_forms Inverse.fresh (pose_at (-0.1) 0.1 0.2)).2.get_soln)) :=
  ⟨by rw [sample_solve_count]; decide,
    ik_solve_limit_invariant sample_forms Inverse.fresh (pose_at (-0.1) 0.1 0.2)
      (by rw [sample_solve_count]; decide)⟩

/-- C3: the value returned by `ik_solve` is a solution count 1 or 2, or one of the codes
-1, -2, -3, -4, -5; it is never 0, never above 2 and never below -5. -/
theorem ik_solve_return_values (g : ClosedForms) (self : Inverse)
    (desired_hand_pose : Affine3d) :
    ((ik_solve g self desired_hand_pose).1 = 1 ∨ (ik_solve g self desired_hand_pose).1 = 2 ∨
        (ik_solve g self desired_hand_pose).1 = -1 ∨
        (ik_solve g self desired_hand_pose).1 = -2 ∨
        (ik_solve g self desired_hand_pose).1 = -3 ∨
        (ik_solve g self desired_hand_pose).1 = -4 ∨
        (ik_solve g self desired_hand_pose).1 = -5) ∧
      (ik_solve g self desired_hand_pose).1 ≠ 0 ∧
      (ik_solve g self desired_hand_pose).1 ≤ 2 ∧
      -5 ≤ (ik_solve g self desired_hand_pose).1 := by
  rcases ik_solve_code g self desired_hand_pose with h | h | ⟨e, h⟩
  · rw [h]
    decide
  · rw [h]
    decide
  · rw [h]
    cases e <;> decide

/-- Counterexample to C6 as stated: at the insertion joint, index 2, the lower limit is
0.01, above the home displacement 0, so the home joint vector is outside the limit
table. -/
theorem q_home_insertion_below_limit :
    ¬ (q_lower_limits 2 ≤ q_home 2 ∧ q_home 2 ≤ q_upper_limits 2) ∧
      q_lower_limits 2 = 0.01 ∧ q_home 2 < q_lower_limits 2 := by
  refine ⟨?_, ?_, ?_⟩
  · norm_num [q_lower_limits, q_home, DH_q_min2]
  · norm_num [q_lower_limits, DH_q_min2]
  · norm_num [q_lower_limits, q_home, DH_q_min2]

/-- C6, amended: `q_lower_limits[i] <= 0 <= q_upper_limits[i]` holds at every joint index
other than the insertion joint, and fails at index 2; the home joint vector is therefore
not acceptable under the limit table. -/
theorem q_home_within_limits_iff (i : Fin 7) :
    (q_lower_limits i ≤ q_home i ∧ q_home i ≤ q_upper_limits i) ↔ i ≠ 2 := by
  fin_cases i <;>
    first
    | (refine iff_of_true ?_ (by decide)
       norm_num [q_home, q_lower_limits, q_upper_limits, DH_q_min0, DH_q_min1, DH_q_min2,
         DH_q_min3, DH_q_min4, DH_q_min5, DH_q_min6, DH_q_max0, DH_q_max1, DH_q_max2,
         DH_q_max3, DH_q_max4, DH_q_max5, DH_q_max6])
    | (refine iff_of_false ?_ (by decide)
       norm_num [q_home, q_lower_limits, q_upper_limits, DH_q_min2, DH_q_max2])

/-- C7, table invariant: at every joint index the lower limit is at most, in fact
strictly below, the upper limit; both limit arrays list their entries in the joint order
0..6 used by `DH_a_params`, `DH_d_params`, `DH_alpha_params` and `DH_q_offsets`. -/
theorem q_limits_ordered (i : Fin 7) :
    (q_lower_limits i ≤ q_upper_limits i ∧ q_lower_limits i < q_upper_limits i) ∧
      q_lower_limits
        = ![DH_q_min0, DH_q_min1, DH_q_min2, DH_q_min3, DH_q_min4, DH_q_min5, DH_q_min6] ∧
      q_upper_limits
        = ![DH_q_max0, DH_q_max1, DH_q_max2, DH_q_max3, DH_q_max4, DH_q_max5, DH_q_max6] ∧
      DH_a_params = ![DH_a1, DH_a2, DH_a3, DH_a4, DH_a5, DH_a6, DH_a7] ∧
      DH_d_params = ![DH_d1, DH_d2, DH_d3, DH_d4, DH_d5, DH_d6, DH_d7] ∧
      DH_alpha_params
        = ![DH_alpha1, DH_alpha2, DH_alpha3, DH_alpha4, DH_alpha5, DH_alpha6, DH_alpha7] ∧
      DH_q_offsets
        = ![DH_q_offset0, DH_q_offset1, DH_q_offset2, DH_q_offset3, DH_q_offset4,
            DH_q_offset5, DH_q_offset6] :=
  ⟨⟨(q_lower_limits_lt_upper i).le, q_lower_limits_lt_upper i⟩, rfl, rfl, rfl, rfl, rfl, rfl⟩

/-- C8: the link length a5, `DH_a_params[4]`, equals
`dist_from_wrist_bend_axis_to_gripper_jaw_rot_axis = 0.0091` and is strictly positive;
every other entry of `DH_a_params` and every entry of `DH_d_params` is 0. -/
theorem DH_a5_is_the_only_link_length (i : Fin 7) :
    (DH_a_params 4 = dist_from_wrist_bend_axis_to_gripper_jaw_rot_axis ∧
        DH_a_params 4 = 0.0091 ∧ 0 < DH_a_params 4) ∧
      DH_a_params i = (if i = 4 then 0.0091 else 0) ∧ DH_d_params i = 0 := by
  refine ⟨⟨rfl, ?_, ?_⟩, ?_, ?_⟩
  · norm_num [DH_a_params, DH_a5, dist_from_wrist_bend_axis_to_gripper_jaw_rot_axis]
  · norm_num [DH_a_params, DH_a5, dist_from_wrist_bend_axis_to_gripper_jaw_rot_axis]
  · fin_cases i <;>
      first
      | (rw [if_neg (by decide)]
         norm_num [DH_a_params, DH_a1, DH_a2, DH_a3, DH_a4, DH_a6, DH_a7])
      | (rw [if_pos (by decide)]
         norm_num [DH_a_params, DH_a5, dist_from_wrist_bend_axis_to_gripper_jaw_rot_axis])
  · fin_cases i <;>
      norm_num [DH_d_params, DH_d1, DH_d2, DH_d3, DH_d4, DH_d5, DH_d6, DH_d7]

/-- C9, evaluation at the failing input: the lower limit of the insertion joint,
q = `q_lower_limits[2]` = 0.01, is admitted by the limit table, yet it is not larger than
`abs(insertion_offset)` = 0.0156 and the DH insertion `q + DH_q_offsets[2]` is negative
there; the DH insertion is exactly 0 at q = `insertion_offset`, which the table admits
too. -/
theorem insertion_lower_limit_below_offset :
    (q_lower_limits 2 = 0.01 ∧ |insertion_offset| = 0.0156) ∧
      (q_lower_limits 2 ≤ q_lower_limits 2 ∧ q_lower_limits 2 ≤ q_upper_limits 2) ∧
      ¬ (q_lower_limits 2 > |insertion_offset|) ∧
      q_lower_limits 2 + DH_q_offsets 2 < 0 ∧
      (q_lower_limits 2 ≤ insertion_offset ∧ insertion_offset ≤ q_upper_limits 2) ∧
      insertion_offset + DH_q_offsets 2 = 0 := by
  have habs : |insertion_offset| = 0.0156 := by
    rw [abs_of_nonneg] <;> norm_num [insertion_offset]
  refine ⟨⟨?_, habs⟩, ⟨le_refl _, ?_⟩, ?_, ?_, ⟨?_, ?_⟩, ?_⟩
  · norm_num [q_lower_limits, DH_q_min2]
  · norm_num [q_lower_limits, q_upper_limits, DH_q_min2, DH_q_max2]
  · rw [habs]
    norm_num [q_lower_limits, DH_q_min2]
  · norm_num [q_lower_limits, DH_q_min2, DH_q_offsets, DH_q_offset2, insertion_offset]
  · norm_num [q_lower_limits, DH_q_min2, insertion_offset]
  · norm_num [q_upper_limits, DH_q_max2, insertion_offset]
  · norm_num [DH_q_offsets, DH_q_offset2, insertion_offset]

/-- C10: every admissible interval is narrower than one full turn,
`q_upper_limits[i] - q_lower_limits[i] < 2*pi`, so for every real `q` at most one integer
`k` puts `q + 2*pi*k` inside the limits of joint `i`. -/
theorem q_limits_narrower_than_turn (i : Fin 7) :
    ((q_upper_limits i : ℝ) - (q_lower_limits i : ℝ) < 2 * Real.pi) ∧
      ∀ (q : ℝ) (k1 k2 : ℤ),
        ((q_lower_limits i : ℝ) ≤ q + 2 * Real.pi * k1 ∧
          q + 2 * Real.pi * k1 ≤ (q_upper_limits i : ℝ)) →
        ((q_lower_limits i : ℝ) ≤ q + 2 * Real.pi * k2 ∧
          q + 2 * Real.pi * k2 ≤ (q_upper_limits i : ℝ)) →
        k1 = k2 := by
  have hpi := Real.pi_gt_three
  have hw : (q_upper_limits i : ℝ) - (q_lower_limits i : ℝ) < 2 * Real.pi := by
    have h6 : (q_upper_limits i : ℝ) - (q_lower_limits i : ℝ) < 6 := by
      have hq : q_upper_limits i - q_lower_limits i < 6 := by
        fin_cases i <;>
          norm_num [q_lower_limits, q_upper_limits, DH_q_min0, DH_q_min1, DH_q_min2,
            DH_q_min3, DH_q_min4, DH_q_min5, DH_q_min6, DH_q_max0, DH_q_max1, DH_q_max2,
            DH_q_max3, DH_q_max4, DH_q_max5, DH_q_max6]
      exact_mod_cast hq
    linarith
  refine ⟨hw, ?_⟩
  intro q k1 k2 h1 h2
  have hlt : ∀ a b : ℤ, ((q_lower_limits i : ℝ) ≤ q + 2 * Real.pi * a) →
      (q + 2 * Real.pi * b ≤ (q_upper_limits i : ℝ)) → b < a + 1 := by
    intro a b ha hb
    have h : 2 * Real.pi * ((b : ℝ) - a) < 2 * Real.pi * 1 := by linarith
    have h3 : (b : ℝ) - a < 1 := lt_of_mul_lt_mul_left h (by linarith)
    have h4 : (b : ℝ) < ((a + 1 : ℤ) : ℝ) := by
      push_cast
      linarith
    exact_mod_cast h4
  have ha := hlt k1 k2 h1.1 h2.2
  have hb := hlt k2 k1 h2.1 h1.2
  omega

/-- Witness of C10: at joint 0 the value 0.5 is inside the limits, and no other turn of
it is. -/
theorem q_limits_narrower_than_turn_witness :
    ((q_lower_limits 0 : ℝ) ≤ 0.5 + 2 * Real.pi * (0 : ℤ) ∧
        0.5 + 2 * Real.pi * (0 : ℤ) ≤ (q_upper_limits 0 : ℝ)) ∧
      ∀ k : ℤ,
        ((q_lower_limits 0 : ℝ) ≤ 0.5 + 2 * Real.pi * k ∧
          0.5 + 2 * Real.pi * k ≤ (q_upper_limits 0 : ℝ)) → k = 0 :=
  have h0 : (q_lower_limits 0 : ℝ) ≤ 0.5 + 2 * Real.pi * (0 : ℤ) ∧
      0.5 + 2 * Real.pi * (0 : ℤ) ≤ (q_upper_limits 0 : ℝ) := by
    constructor <;> norm_num [q_lower_limits, q_upper_limits, DH_q_min0, DH_q_max0]
  ⟨h0, fun k hk => (q_limits_narrower_than_turn 0).2 0.5 k 0 hk h0⟩

end davinci_kinematics
